import Mathlib

/-!
Verification of the per-CPU settings reconciliation and change-tracking
engine of cpupower-gui-qt, embedded from `src/cpupower_gui/window.py`.

The `CpuSettings` data holder itself lives in `cpupower_gui/config.py`,
which is not part of the sources; its fields and derived predicates are
modelled from the specification (marked `Modelled from the spec:`).
Everything else (apply pass, per-dimension helper steps, error table,
frequency clamping, broadcast handlers) is translated from `window.py`.

Frequencies are modelled as exact integers (MHz).  The source holds
them as Python floats, but every operation the claims touch —
comparison, `min`/`max`, the fixed ±10 offset, the ×1000 kHz scaling —
is exact, and none of the claims depends on fractional MHz values.  The
helper call surface is modelled by per-CPU records of the values the
D-Bus helper would return, and every privileged call the engine issues
is recorded in an explicit trace.
-/

/-- Modelled from the spec: the per-CPU editable state of `CpuSettings`
(`cpupower_gui/config.py`, not under `src/`): target online flag, target
frequency bounds in MHz (an unset bound is `none`), governor and energy
preference by name (unset sentinel is `none`), the per-CPU hardware
facts (available governors, available energy preferences, hardware
frequency bounds), and the captured baseline of the editable fields. -/
structure CpuSettings where
  online : Bool
  fmin : Option Int
  fmax : Option Int
  governor : Option String
  energyPref : Option String
  governors : List String
  energyPrefs : List String
  fminHw : Int
  fmaxHw : Int
  baseOnline : Bool
  baseFmin : Option Int
  baseFmax : Option Int
  baseGovernor : Option String
  baseEnergyPref : Option String
deriving DecidableEq

/-- Modelled from the spec: `setting_changed(field)` of `CpuSettings`
(`config.py`, not under `src/`) — true iff that specific editable field
differs from its baseline.  The field keys are the strings used by the
caller in `window.py` (`"freqs"`, `"governor"`, `"energy_pref"`,
`"online"`). -/
def CpuSettings.setting_changed (c : CpuSettings) (field : String) : Bool :=
  if field = "freqs" then
    decide (c.fmin ≠ c.baseFmin) || decide (c.fmax ≠ c.baseFmax)
  else if field = "governor" then decide (c.governor ≠ c.baseGovernor)
  else if field = "energy_pref" then decide (c.energyPref ≠ c.baseEnergyPref)
  else if field = "online" then decide (c.online ≠ c.baseOnline)
  else false

/-- Modelled from the spec: the derived `changed` predicate of
`CpuSettings` (`config.py`, not under `src/`) — true iff any editable
field differs from the baseline. -/
def CpuSettings.changed (c : CpuSettings) : Bool :=
  c.setting_changed "freqs" || c.setting_changed "governor" ||
  c.setting_changed "energy_pref" || c.setting_changed "online"

/-- Modelled from the spec: the `freqs_scaled` property of `CpuSettings`
(`config.py`, not under `src/`) — raw values exchanged with the helper
are in kHz while settings are held in MHz, so each set bound is scaled
by 1000; an unset bound stays `None`. -/
def CpuSettings.freqs_scaled (c : CpuSettings) : Option Int × Option Int :=
  (c.fmin.map (· * 1000), c.fmax.map (· * 1000))

/-- Modelled from the spec: the `freqs` setter of `CpuSettings`
(`config.py`, not under `src/`) stores the requested MHz pair; clamping
and min/max conflict resolution happen in the caller
(`_on_freq_changed` in `window.py`, embedded below as
`on_freq_changed`). -/
def CpuSettings.set_freqs (c : CpuSettings) (fmin fmax : Int) : CpuSettings :=
  { c with fmin := some fmin, fmax := some fmax }

/-- Modelled from the spec: the `governor` setter of `CpuSettings`
(`config.py`, not under `src/`) — fails silently (no-op) if the name is
not among this CPU's available governors, otherwise stores it. -/
def CpuSettings.set_governor (c : CpuSettings) (gov : Option String) : CpuSettings :=
  match gov with
  | some name => if name ∈ c.governors then { c with governor := some name } else c
  | none => c

/-- Modelled from the spec: the `energy_pref` setter of `CpuSettings`
(`config.py`, not under `src/`) — no-op if the id is not among this
CPU's available energy preferences, otherwise stores it. -/
def CpuSettings.set_energy_pref (c : CpuSettings) (pref : Option String) : CpuSettings :=
  match pref with
  | some p => if p ∈ c.energyPrefs then { c with energyPref := some p } else c
  | none => c

/-- Modelled from the spec: the `online` setter of `CpuSettings`
(`config.py`, not under `src/`) — unconditional assignment; offline
legality is enforced by the caller. -/
def CpuSettings.set_online (c : CpuSettings) (b : Bool) : CpuSettings :=
  { c with online := b }

/-- The helper call surface for one CPU, modelling what the external
D-Bus helper (`org.rnd2.cpupower_gui.helper`) reports and returns:
the live online/offline state (`is_online` / `is_offline` each require
the CPU to be present), whether the CPU may go offline, and the integer
return values of each mutating call. -/
structure HelperCpu where
  isOnline : Bool
  isOffline : Bool
  allowedOffline : Bool
  setOnlineRet : Int
  setOfflineRet : Int
  govRet : Int
  energyRet : Int
  freqRet : Int
deriving DecidableEq

/-- One privileged helper call as issued by the engine. -/
inductive HelperCall where
  | setOnline (cpu : Nat)
  | setOffline (cpu : Nat)
  | updateGovernor (cpu : Nat) (gov : String)
  | updateEnergyPrefs (cpu : Nat) (pref : String)
  | updateSettings (cpu : Nat) (fmin fmax : Int)
deriving DecidableEq

/-- The CPU id a helper call is addressed to. -/
def HelperCall.call_cpu : HelperCall → Nat
  | .setOnline cpu => cpu
  | .setOffline cpu => cpu
  | .updateGovernor cpu _ => cpu
  | .updateEnergyPrefs cpu _ => cpu
  | .updateSettings cpu _ _ => cpu

/-- Whether a helper call writes frequency, governor or energy
preference (as opposed to an online/offline transition). -/
def HelperCall.is_settings_write : HelperCall → Bool
  | .setOnline _ => false
  | .setOffline _ => false
  | .updateGovernor _ _ => true
  | .updateEnergyPrefs _ _ => true
  | .updateSettings _ _ _ => true

/-- Whether a helper call is an online/offline transition. -/
def HelperCall.is_online_transition : HelperCall → Bool
  | .setOnline _ => true
  | .setOffline _ => true
  | .updateGovernor _ _ => false
  | .updateEnergyPrefs _ _ => false
  | .updateSettings _ _ _ => false

/-- Whether the helper reported success for a given call, under the
helper behaviour `h`. -/
def call_ok (h : HelperCpu) : HelperCall → Bool
  | .setOnline _ => decide (h.setOnlineRet = 0)
  | .setOffline _ => decide (h.setOfflineRet = 0)
  | .updateGovernor _ _ => decide (h.govRet = 0)
  | .updateEnergyPrefs _ _ => decide (h.energyRet = 0)
  | .updateSettings _ _ _ => decide (h.freqRet = 0)

/-- `_set_cpu_online` from `window.py`: issue `set_cpu_online` when the
CPU is live-offline but the target is online (returning the raw helper
result), issue `set_cpu_offline` when the CPU is live-online, the target
is offline and the CPU is allowed to go offline; otherwise do nothing and
return 0.  The result is the returned integer together with the trace of
issued privileged calls. -/
def set_cpu_online (h : HelperCpu) (conf : Option CpuSettings) (cpu : Nat) :
    Int × List HelperCall :=
  match conf with
  | none => (0, [])
  | some conf =>
    if h.isOffline && conf.online then
      (h.setOnlineRet, [HelperCall.setOnline cpu])
    else if h.isOnline && !conf.online then
      if h.allowedOffline then (h.setOfflineRet, [HelperCall.setOffline cpu])
      else (0, [])
    else (0, [])

/-- `_set_cpu_governor` from `window.py`: −1 when the settings entry or
the governor value is missing (no call issued); otherwise issue
`update_cpu_governor` and map a non-zero helper result to −11. -/
def set_cpu_governor (h : HelperCpu) (conf : Option CpuSettings) (cpu : Nat) :
    Int × List HelperCall :=
  match conf with
  | none => (-1, [])
  | some conf =>
    match conf.governor with
    | none => (-1, [])
    | some gov =>
      (if h.govRet ≠ 0 then -11 else 0, [HelperCall.updateGovernor cpu gov])

/-- `_set_cpu_energy_preferences` from `window.py`: 0 when energy
preferences are globally unavailable; −1 when the settings entry is
missing or the preference value is falsy (`None` or the empty string),
with no call issued; otherwise issue `update_cpu_energy_prefs` and map a
non-zero helper result to −12. -/
def set_cpu_energy_preferences (energy_pref_avail : Bool) (h : HelperCpu)
    (conf : Option CpuSettings) (cpu : Nat) : Int × List HelperCall :=
  if !energy_pref_avail then (0, [])
  else
    match conf with
    | none => (-1, [])
    | some conf =>
      match conf.energyPref with
      | none => (-1, [])
      | some pref =>
        if pref = "" then (-1, [])
        else (if h.energyRet ≠ 0 then -12 else 0, [HelperCall.updateEnergyPrefs cpu pref])

/-- `_set_cpu_frequencies` from `window.py`: −1 when the settings entry
is missing or either scaled bound is missing (no call issued); otherwise
issue `update_cpu_settings` with the kHz-scaled bounds and map a
non-zero helper result to −13. -/
def set_cpu_frequencies (h : HelperCpu) (conf : Option CpuSettings) (cpu : Nat) :
    Int × List HelperCall :=
  match conf with
  | none => (-1, [])
  | some conf =>
    match conf.freqs_scaled with
    | (some fmin, some fmax) =>
      (if h.freqRet ≠ 0 then -13 else 0, [HelperCall.updateSettings cpu fmin fmax])
    | _ => (-1, [])

/-- The guarded frequency write of the `on_apply_clicked` loop in
`window.py`: run `_set_cpu_frequencies` when the `"freqs"` field
changed, else contribute 0 with no call. -/
def freq_step (h : HelperCpu) (conf : CpuSettings) (cpu : Nat) : Int × List HelperCall :=
  if conf.setting_changed "freqs" then set_cpu_frequencies h (some conf) cpu else (0, [])

/-- The guarded governor write of the `on_apply_clicked` loop in
`window.py`: run `_set_cpu_governor` when the `"governor"` field
changed, else contribute 0 with no call. -/
def gov_step (h : HelperCpu) (conf : CpuSettings) (cpu : Nat) : Int × List HelperCall :=
  if conf.setting_changed "governor" then set_cpu_governor h (some conf) cpu else (0, [])

/-- The guarded energy-preference write of the `on_apply_clicked` loop
in `window.py`: run `_set_cpu_energy_preferences` when the
`"energy_pref"` field changed, else contribute 0 with no call. -/
def energy_step (energy_pref_avail : Bool) (h : HelperCpu) (conf : CpuSettings)
    (cpu : Nat) : Int × List HelperCall :=
  if conf.setting_changed "energy_pref" then
    set_cpu_energy_preferences energy_pref_avail h (some conf) cpu else (0, [])

/-- The body of the `on_apply_clicked` loop in `window.py` for one
changed CPU: the online step always runs; if the target state is online,
the frequency, governor and energy steps follow (in that order) and
their results are added; if the target state is offline, only the
online step runs. -/
def apply_changed_cpu (energy_pref_avail : Bool) (cpu : Nat) (h : HelperCpu)
    (conf : CpuSettings) : Int × List HelperCall :=
  if conf.online then
    ((set_cpu_online h (some conf) cpu).1 + (freq_step h conf cpu).1 +
       (gov_step h conf cpu).1 + (energy_step energy_pref_avail h conf cpu).1,
     (set_cpu_online h (some conf) cpu).2 ++ (freq_step h conf cpu).2 ++
       (gov_step h conf cpu).2 ++ (energy_step energy_pref_avail h conf cpu).2)
  else set_cpu_online h (some conf) cpu

/-- One CPU of the machine as seen by the apply pass: its id, the
helper's behaviour for it, and its settings entry. -/
structure MachineCpu where
  cpu : Nat
  helper : HelperCpu
  conf : CpuSettings
deriving DecidableEq

/-- `on_apply_clicked` from `window.py` (assuming the caller is
authorized): starting from `ret = 0`, iterate over the CPUs whose
settings changed, adding each CPU's per-dimension results to `ret` and
collecting the issued privileged calls. -/
def on_apply_clicked (energy_pref_avail : Bool) (machine : List MachineCpu) :
    Int × List HelperCall :=
  (machine.filter (fun m => m.conf.changed)).foldl
    (fun acc m =>
      (acc.1 + (apply_changed_cpu energy_pref_avail m.cpu m.helper m.conf).1,
       acc.2 ++ (apply_changed_cpu energy_pref_avail m.cpu m.helper m.conf).2))
    (0, [])

/-- The `ERRORS` table from `window.py`, as a partial map from aggregate
code to message. -/
def ERRORS (code : Int) : Option String :=
  if code = -11 then some "Setting governor failed."
  else if code = -12 then some "Setting energy preferences failed."
  else if code = -13 then some "Setting frequencies failed."
  else if code = -23 then some "Setting governor and energy preferences failed."
  else if code = -24 then some "Setting governor and frequencies failed."
  else if code = -25 then some "Setting frequencies and energy preferences failed."
  else none

/-- The tail of `on_apply_clicked` in `window.py`: a zero aggregate is
treated as success (no dialog, `none`); any non-zero aggregate is shown
as the table message for that code, defaulting to the generic
"Unknown error occurred." message. -/
def apply_outcome (ret : Int) : Option String :=
  if ret = 0 then none else some ((ERRORS ret).getD "Unknown error occurred.")

/-- `_on_freq_changed` from `window.py`, reduced to its value logic: the
requested MHz pair is taken from the spin boxes (whose ranges are the
hardware bounds); when the requested min exceeds the requested max the
max is pushed to `min (fmin + 10) fmax_hw`; the `fmax < fmin` branch of
the source is kept verbatim (it is unreachable, being the same
condition). -/
def on_freq_changed (fmin_hw fmax_hw fmin fmax : Int) : Int × Int :=
  if fmin > fmax then (fmin, min (fmin + 10) fmax_hw)
  else if fmax < fmin then (max (fmax - 10) fmin_hw, fmax)
  else (fmin, fmax)

/-- Modelled from the spec: the claimed conflict resolution — "push the
other bound by the same delta that was requested, re-clamped to hardware
limits".  When the requested min overshoots the requested max by
`fmin - fmax`, the max bound is pushed up by exactly that delta
(landing on `fmin`) and re-clamped to `fmax_hw`. -/
def resolve_freqs_spec (fmin_hw fmax_hw fmin fmax : Int) : Int × Int :=
  if fmin > fmax then (fmin, min (fmax + (fmin - fmax)) fmax_hw)
  else (fmin, fmax)

/-- `_update_settings_freqs` from `window.py`: with the "apply to all"
toggle on, assign the frequency pair to every CPU's settings; otherwise
only to the active CPU's settings. -/
def update_settings_freqs (toall : Bool) (cpu : Nat) (fmin fmax : Int)
    (settings : List (Nat × CpuSettings)) : List (Nat × CpuSettings) :=
  if toall then settings.map (fun e => (e.1, e.2.set_freqs fmin fmax))
  else settings.map (fun e => if e.1 = cpu then (e.1, e.2.set_freqs fmin fmax) else e)

/-- `on_governor_changed` from `window.py`: with the "apply to all"
toggle on, assign the selected governor to every CPU's settings;
otherwise only to the active CPU's settings. -/
def on_governor_changed (toall : Bool) (cpu : Nat) (gov : Option String)
    (settings : List (Nat × CpuSettings)) : List (Nat × CpuSettings) :=
  if toall then settings.map (fun e => (e.1, e.2.set_governor gov))
  else settings.map (fun e => if e.1 = cpu then (e.1, e.2.set_governor gov) else e)

/-- `on_energy_pref_changed` from `window.py`: when the energy-per-CPU
flag is set, assign the selected preference only to the active CPU's
settings; otherwise to every CPU's settings.  This handler never
consults the main "apply to all" toggle. -/
def on_energy_pref_changed (energy_per_cpu : Bool) (cpu : Nat) (pref : Option String)
    (settings : List (Nat × CpuSettings)) : List (Nat × CpuSettings) :=
  if energy_per_cpu then
    settings.map (fun e => if e.1 = cpu then (e.1, e.2.set_energy_pref pref) else e)
  else settings.map (fun e => (e.1, e.2.set_energy_pref pref))

/-- `on_cpu_online_toggled` from `window.py`: assign the checkbox state
to the active CPU's settings.  The handler never consults the
"apply to all" toggle. -/
def on_cpu_online_toggled (cpu : Nat) (checked : Bool)
    (settings : List (Nat × CpuSettings)) : List (Nat × CpuSettings) :=
  settings.map (fun e => if e.1 = cpu then (e.1, e.2.set_online checked) else e)

/-! ### Concrete instances

A small machine used to evaluate the embedded operations at concrete
inputs: hardware bounds 800–3200 MHz, two governors and two energy
preferences, as in the specification's test scenario. -/

/-- A concrete settings entry whose editable fields equal its baseline
(no field changed). -/
def conf_base : CpuSettings :=
  { online := true, fmin := some 1000, fmax := some 2000,
    governor := some "powersave", energyPref := some "balance_performance",
    governors := ["performance", "powersave"],
    energyPrefs := ["performance", "balance_performance"],
    fminHw := 800, fmaxHw := 3200,
    baseOnline := true, baseFmin := some 1000, baseFmax := some 2000,
    baseGovernor := some "powersave", baseEnergyPref := some "balance_performance" }

/-- A concrete helper behaviour: CPU live-online, allowed to go
offline, every call succeeding. -/
def helper_ok : HelperCpu :=
  { isOnline := true, isOffline := false, allowedOffline := true,
    setOnlineRet := 0, setOfflineRet := 0, govRet := 0, energyRet := 0,
    freqRet := 0 }

/-- Changed frequencies, changed governor, changed-but-unset energy
preference. -/
def conf_c1 : CpuSettings :=
  { conf_base with
    fmin := some 1500, governor := some "performance", energyPref := none }

/-- Helper behaviour where the governor and frequency writes fail. -/
def helper_c1 : HelperCpu := { helper_ok with govRet := 1, freqRet := 1 }

/-- One CPU whose governor and frequency writes fail while its
changed-but-unset energy preference contributes −1 without a call. -/
def machine_c1 : List MachineCpu := [{ cpu := 0, helper := helper_c1, conf := conf_c1 }]

/-- Changed frequencies and governor only, energy preference
untouched. -/
def conf_c1w : CpuSettings :=
  { conf_base with fmin := some 1500, governor := some "performance" }

/-- One CPU where exactly the governor and frequency writes fail. -/
def machine_c1w : List MachineCpu := [{ cpu := 0, helper := helper_c1, conf := conf_c1w }]

/-- A changed CPU whose target state is offline. -/
def conf_off : CpuSettings := { conf_base with online := false }

/-- One changed CPU (id 1) whose target state is offline. -/
def machine_c2 : List MachineCpu := [{ cpu := 1, helper := helper_ok, conf := conf_off }]

/-- Helper behaviour that forbids taking the CPU offline. -/
def helper_noff : HelperCpu := { helper_ok with allowedOffline := false }

/-- A changed CPU going online whose transition fails with a positive
raw code (+13) while its frequency write fails (−13). -/
def conf_c5 : CpuSettings := { conf_base with fmin := some 1500 }

/-- Helper behaviour: CPU live-offline, transition to online returns
+13, frequency write fails. -/
def helper_c5 : HelperCpu :=
  { isOnline := false, isOffline := true, allowedOffline := true,
    setOnlineRet := 13, setOfflineRet := 0, govRet := 0, energyRet := 0,
    freqRet := 1 }

/-- One CPU on which a failed transition (+13) and a failed frequency
write (−13) cancel out to an aggregate of 0. -/
def machine_c5 : List MachineCpu := [{ cpu := 0, helper := helper_c5, conf := conf_c5 }]

/-- A changed governor with every call succeeding. -/
def conf_c5w : CpuSettings := { conf_base with governor := some "performance" }

/-- One CPU with a changed governor and a fully succeeding helper. -/
def machine_c5w : List MachineCpu := [{ cpu := 0, helper := helper_ok, conf := conf_c5w }]

/-- Two CPUs with identical, unchanged settings. -/
def settings_c6 : List (Nat × CpuSettings) := [(0, conf_base), (1, conf_base)]

/-- A CPU changed only in its online field (target online, baseline
offline). -/
def conf_c9 : CpuSettings := { conf_base with baseOnline := false }

/-- Helper behaviour: CPU live-offline and the transition to online
fails with raw code −11, colliding with the governor table entry. -/
def helper_c9 : HelperCpu :=
  { isOnline := false, isOffline := true, allowedOffline := true,
    setOnlineRet := -11, setOfflineRet := 0, govRet := 0, energyRet := 0,
    freqRet := 0 }

/-- One CPU whose only failure is an online transition returning −11. -/
def machine_c9 : List MachineCpu := [{ cpu := 0, helper := helper_c9, conf := conf_c9 }]

/-- Helper behaviour: CPU live-offline and the transition to online
fails with raw code +7, outside the error table. -/
def helper_c9w : HelperCpu := { helper_c9 with setOnlineRet := 7 }

/-- A CPU whose governor changed to the unset sentinel. -/
def conf_c10 : CpuSettings := { conf_base with governor := none }

/-- One CPU whose governor dimension is selected for writing but whose
governor value is unset. -/
def machine_c10 : List MachineCpu := [{ cpu := 0, helper := helper_ok, conf := conf_c10 }]

/-- One unchanged CPU. -/
def machine_idle : List MachineCpu := [{ cpu := 0, helper := helper_ok, conf := conf_base }]

/-! ### Shared structural lemmas -/

/-- A fold that adds results and appends traces equals the summed
results and joined traces. -/
theorem foldl_add_append (f : MachineCpu → Int) (g : MachineCpu → List HelperCall) :
    ∀ (l : List MachineCpu) (a : Int) (cs : List HelperCall),
      l.foldl (fun acc m => (acc.1 + f m, acc.2 ++ g m)) (a, cs)
        = (a + (l.map f).sum, cs ++ (l.map g).join) := by
  intro l
  induction l with
  | nil => intro a cs; simp
  | cons x xs ih =>
    intro a cs
    rw [List.foldl_cons, ih]
    simp [add_assoc]

/-- The apply pass returns the sum of the per-changed-CPU results and
the concatenation of the per-changed-CPU call traces. -/
theorem on_apply_clicked_eq (ep : Bool) (machine : List MachineCpu) :
    on_apply_clicked ep machine =
      (((machine.filter (fun m => m.conf.changed)).map
          (fun m => (apply_changed_cpu ep m.cpu m.helper m.conf).1)).sum,
       ((machine.filter (fun m => m.conf.changed)).map
          (fun m => (apply_changed_cpu ep m.cpu m.helper m.conf).2)).join) := by
  unfold on_apply_clicked
  rw [foldl_add_append]
  simp

/-- An element of `l.zip (l.map f)` pairs each element with its image. -/
theorem mem_zip_map {α β : Type} (f : α → β) :
    ∀ (l : List α) (p : α × β), p ∈ l.zip (l.map f) → p.2 = f p.1 := by
  intro l
  induction l with
  | nil => intro p h; simp at h
  | cons x xs ih =>
    intro p h
    rw [List.map_cons, List.zip_cons_cons, List.mem_cons] at h
    rcases h with h | h
    · rw [h]
    · exact ih p h

/-- If every element of an integer list is nonpositive, so is its sum. -/
theorem list_sum_nonpos : ∀ (l : List Int), (∀ x ∈ l, x ≤ 0) → l.sum ≤ 0 := by
  intro l
  induction l with
  | nil => intro _; simp
  | cons x xs ih =>
    intro h
    rw [List.sum_cons]
    have hx := h x (List.mem_cons_self x xs)
    have hxs := ih (fun y hy => h y (List.mem_cons_of_mem x hy))
    omega

/-- A nonpositive list summing to zero is zero everywhere. -/
theorem list_mem_eq_zero_of_sum_zero :
    ∀ (l : List Int), (∀ x ∈ l, x ≤ 0) → l.sum = 0 → ∀ x ∈ l, x = 0 := by
  intro l
  induction l with
  | nil => intro _ _ x hx; simp at hx
  | cons y ys ih =>
    intro hle hsum x hx
    rw [List.sum_cons] at hsum
    have hy := hle y (List.mem_cons_self y ys)
    have hys := list_sum_nonpos ys (fun z hz => hle z (List.mem_cons_of_mem y hz))
    rcases List.mem_cons.mp hx with h | h
    · omega
    · exact ih (fun z hz => hle z (List.mem_cons_of_mem y hz)) (by omega) x h

/-- Summing a function over a list containing `m` exactly once, and
vanishing elsewhere, yields the value at `m`. -/
theorem list_map_sum_single {α : Type} [DecidableEq α] (f : α → Int) :
    ∀ (l : List α) (m : α), l.count m = 1 →
      (∀ x ∈ l, x ≠ m → f x = 0) → (l.map f).sum = f m := by
  intro l
  induction l with
  | nil => intro m h; simp at h
  | cons x xs ih =>
    intro m hcount hzero
    rw [List.count_cons] at hcount
    simp only [beq_iff_eq] at hcount
    by_cases hxm : m = x
    · subst hxm
      rw [if_pos rfl] at hcount
      have hc0 : xs.count m = 0 := by omega
      have hnot : m ∉ xs := List.count_eq_zero.mp hc0
      rw [List.map_cons, List.sum_cons]
      have : (xs.map f).sum = 0 := by
        apply List.sum_eq_zero
        intro y hy
        rcases List.mem_map.mp hy with ⟨z, hz, rfl⟩
        exact hzero z (List.mem_cons_of_mem m hz) (fun h => hnot (h ▸ hz))
      omega
    · have hfx : f x = 0 := hzero x (List.mem_cons_self x xs) (fun h => hxm h.symm)
      rw [if_neg (fun h => hxm h.symm)] at hcount
      rw [List.map_cons, List.sum_cons, hfx, zero_add]
      exact ih m (by omega) (fun z hz hzm => hzero z (List.mem_cons_of_mem x hz) hzm)

/-! ### Per-step facts -/

/-- An online transition is never a settings write. -/
theorem transition_not_settings_write (c : HelperCall) :
    c.is_online_transition = true → c.is_settings_write = false := by
  cases c <;> simp [HelperCall.is_online_transition, HelperCall.is_settings_write]

/-- The online step issues a call only when the live state disagrees
with the target state. -/
theorem set_cpu_online_disagree (h : HelperCpu) (conf : CpuSettings) (cpu : Nat) :
    (set_cpu_online h (some conf) cpu).2 ≠ [] →
      (h.isOffline = true ∧ conf.online = true) ∨
      (h.isOnline = true ∧ conf.online = false) := by
  simp only [set_cpu_online]
  split_ifs with h1 h2 h3 <;> intro hne
  · exact Or.inl ⟨(Bool.and_eq_true _ _ |>.mp h1).1, (Bool.and_eq_true _ _ |>.mp h1).2⟩
  · have := (Bool.and_eq_true _ _ |>.mp h2)
    exact Or.inr ⟨this.1, by simpa using this.2⟩
  · simp at hne
  · simp at hne

/-- When the target is offline and the helper forbids going offline,
the online step is a complete no-op contributing 0. -/
theorem set_cpu_online_skip (h : HelperCpu) (conf : CpuSettings) (cpu : Nat)
    (ho : conf.online = false) (ha : h.allowedOffline = false) :
    set_cpu_online h (some conf) cpu = (0, []) := by
  simp [set_cpu_online, ho, ha]

/-- Every call of the online step is an online transition. -/
theorem set_cpu_online_transition (h : HelperCpu) (conf : CpuSettings) (cpu : Nat) :
    ∀ c ∈ (set_cpu_online h (some conf) cpu).2, c.is_online_transition = true := by
  intro c hc
  simp only [set_cpu_online] at hc
  split_ifs at hc <;> simp_all [HelperCall.is_online_transition]

/-- Every call of the online step is addressed to its CPU. -/
theorem set_cpu_online_calls_cpu (h : HelperCpu) (conf : CpuSettings) (cpu : Nat) :
    ∀ c ∈ (set_cpu_online h (some conf) cpu).2, c.call_cpu = cpu := by
  intro c hc
  simp only [set_cpu_online] at hc
  split_ifs at hc <;> simp_all [HelperCall.call_cpu]

/-- The online step result is nonpositive when the helper's transition
returns are. -/
theorem set_cpu_online_nonpos (h : HelperCpu) (conf : CpuSettings) (cpu : Nat)
    (h1 : h.setOnlineRet ≤ 0) (h2 : h.setOfflineRet ≤ 0) :
    (set_cpu_online h (some conf) cpu).1 ≤ 0 := by
  simp only [set_cpu_online]
  split_ifs <;> simp [h1, h2]

/-- A zero online-step result means its issued call (if any) succeeded. -/
theorem set_cpu_online_zero_ok (h : HelperCpu) (conf : CpuSettings) (cpu : Nat)
    (hz : (set_cpu_online h (some conf) cpu).1 = 0) :
    ∀ c ∈ (set_cpu_online h (some conf) cpu).2, call_ok h c = true := by
  intro c hc
  simp only [set_cpu_online] at hz hc
  split_ifs at hz hc <;> simp_all [call_ok]

/-- The governor step yields −1 with no call when the governor value is
unset. -/
theorem set_cpu_governor_unset (h : HelperCpu) (conf : CpuSettings) (cpu : Nat)
    (hg : conf.governor = none) :
    set_cpu_governor h (some conf) cpu = (-1, []) := by
  simp [set_cpu_governor, hg]

/-- The governor step result is nonpositive. -/
theorem set_cpu_governor_nonpos (h : HelperCpu) (oc : Option CpuSettings) (cpu : Nat) :
    (set_cpu_governor h oc cpu).1 ≤ 0 := by
  rcases oc with _ | conf
  · simp [set_cpu_governor]
  · rcases hg : conf.governor with _ | g <;>
      simp [set_cpu_governor, hg] <;> split_ifs <;> simp

/-- A zero governor-step result means its issued call succeeded. -/
theorem set_cpu_governor_zero_ok (h : HelperCpu) (conf : CpuSettings) (cpu : Nat)
    (hz : (set_cpu_governor h (some conf) cpu).1 = 0) :
    ∀ c ∈ (set_cpu_governor h (some conf) cpu).2, call_ok h c = true := by
  intro c hc
  rcases hg : conf.governor with _ | g <;>
    simp only [set_cpu_governor, hg] at hz hc
  · simp at hc
  · split_ifs at hz hc <;> simp_all [call_ok]

/-- Every call of the governor step is a settings write addressed to
its CPU, not an online transition. -/
theorem set_cpu_governor_calls (h : HelperCpu) (conf : CpuSettings) (cpu : Nat) :
    ∀ c ∈ (set_cpu_governor h (some conf) cpu).2,
      c.call_cpu = cpu ∧ c.is_online_transition = false := by
  intro c hc
  rcases hg : conf.governor with _ | g <;>
    simp only [set_cpu_governor, hg] at hc
  · simp at hc
  · simp_all [HelperCall.call_cpu, HelperCall.is_online_transition]

/-- The energy step yields −1 with no call when energy preferences are
available but the preference value is falsy. -/
theorem set_cpu_energy_preferences_unset (h : HelperCpu) (conf : CpuSettings) (cpu : Nat)
    (hp : conf.energyPref = none ∨ conf.energyPref = some "") :
    set_cpu_energy_preferences true h (some conf) cpu = (-1, []) := by
  rcases hp with hp | hp <;> simp [set_cpu_energy_preferences, hp]

/-- The energy step result is nonpositive. -/
theorem set_cpu_energy_preferences_nonpos (ep : Bool) (h : HelperCpu)
    (oc : Option CpuSettings) (cpu : Nat) :
    (set_cpu_energy_preferences ep h oc cpu).1 ≤ 0 := by
  rcases ep with _ | _
  · simp [set_cpu_energy_preferences]
  · rcases oc with _ | conf
    · simp [set_cpu_energy_preferences]
    · rcases hp : conf.energyPref with _ | p <;>
        simp [set_cpu_energy_preferences, hp] <;> split_ifs <;> simp

/-- A zero energy-step result means its issued call (if any) succeeded. -/
theorem set_cpu_energy_preferences_zero_ok (ep : Bool) (h : HelperCpu)
    (conf : CpuSettings) (cpu : Nat)
    (hz : (set_cpu_energy_preferences ep h (some conf) cpu).1 = 0) :
    ∀ c ∈ (set_cpu_energy_preferences ep h (some conf) cpu).2, call_ok h c = true := by
  intro c hc
  rcases ep with _ | _
  · simp [set_cpu_energy_preferences] at hc
  · rcases hp : conf.energyPref with _ | p <;>
      simp only [set_cpu_energy_preferences, hp] at hz hc
    · simp at hc
    · simp only [Bool.not_true, Bool.false_eq_true, if_false] at hz hc
      split_ifs at hz hc <;> simp_all [call_ok]

/-- Every call of the energy step is a settings write addressed to its
CPU, not an online transition. -/
theorem set_cpu_energy_preferences_calls (ep : Bool) (h : HelperCpu)
    (conf : CpuSettings) (cpu : Nat) :
    ∀ c ∈ (set_cpu_energy_preferences ep h (some conf) cpu).2,
      c.call_cpu = cpu ∧ c.is_online_transition = false := by
  intro c hc
  rcases ep with _ | _
  · simp [set_cpu_energy_preferences] at hc
  · rcases hp : conf.energyPref with _ | p <;>
      simp only [set_cpu_energy_preferences, hp] at hc
    · simp at hc
    · simp only [Bool.not_true, Bool.false_eq_true, if_false] at hc
      split_ifs at hc <;>
        simp_all [HelperCall.call_cpu, HelperCall.is_online_transition]

/-- The frequency step yields −1 with no call when either frequency
bound is unset. -/
theorem set_cpu_frequencies_unset (h : HelperCpu) (conf : CpuSettings) (cpu : Nat)
    (hf : conf.fmin = none ∨ conf.fmax = none) :
    set_cpu_frequencies h (some conf) cpu = (-1, []) := by
  rcases hf with hf | hf
  · rcases hx : conf.fmax with _ | b <;>
      simp [set_cpu_frequencies, CpuSettings.freqs_scaled, hf, hx]
  · rcases hn : conf.fmin with _ | a <;>
      simp [set_cpu_frequencies, CpuSettings.freqs_scaled, hf, hn]

/-- The frequency step result is nonpositive. -/
theorem set_cpu_frequencies_nonpos (h : HelperCpu) (oc : Option CpuSettings) (cpu : Nat) :
    (set_cpu_frequencies h oc cpu).1 ≤ 0 := by
  rcases oc with _ | conf
  · simp [set_cpu_frequencies]
  · rcases hn : conf.fmin with _ | a <;> rcases hx : conf.fmax with _ | b <;>
      simp [set_cpu_frequencies, CpuSettings.freqs_scaled, hn, hx] <;>
      split_ifs <;> simp

/-- A zero frequency-step result means its issued call succeeded. -/
theorem set_cpu_frequencies_zero_ok (h : HelperCpu) (conf : CpuSettings) (cpu : Nat)
    (hz : (set_cpu_frequencies h (some conf) cpu).1 = 0) :
    ∀ c ∈ (set_cpu_frequencies h (some conf) cpu).2, call_ok h c = true := by
  intro c hc
  rcases hn : conf.fmin with _ | a <;> rcases hx : conf.fmax with _ | b <;>
    simp only [set_cpu_frequencies, CpuSettings.freqs_scaled, hn, hx,
      Option.map_some, Option.map_none] at hz hc <;>
    try simp at hc
  split_ifs at hz hc <;> simp_all [call_ok]

/-- Every call of the frequency step is a settings write addressed to
its CPU, not an online transition. -/
theorem set_cpu_frequencies_calls (h : HelperCpu) (conf : CpuSettings) (cpu : Nat) :
    ∀ c ∈ (set_cpu_frequencies h (some conf) cpu).2,
      c.call_cpu = cpu ∧ c.is_online_transition = false := by
  intro c hc
  rcases hn : conf.fmin with _ | a <;> rcases hx : conf.fmax with _ | b <;>
    simp only [set_cpu_frequencies, CpuSettings.freqs_scaled, hn, hx,
      Option.map_some, Option.map_none] at hc <;>
    try simp at hc
  simp_all [HelperCall.call_cpu, HelperCall.is_online_transition]

/-! ### Per-changed-CPU facts -/

/-- The guarded frequency step is nonpositive. -/
theorem freq_step_nonpos (h : HelperCpu) (conf : CpuSettings) (cpu : Nat) :
    (freq_step h conf cpu).1 ≤ 0 := by
  simp only [freq_step]
  split_ifs
  · exact set_cpu_frequencies_nonpos h (some conf) cpu
  · simp

/-- The guarded governor step is nonpositive. -/
theorem gov_step_nonpos (h : HelperCpu) (conf : CpuSettings) (cpu : Nat) :
    (gov_step h conf cpu).1 ≤ 0 := by
  simp only [gov_step]
  split_ifs
  · exact set_cpu_governor_nonpos h (some conf) cpu
  · simp

/-- The guarded energy step is nonpositive. -/
theorem energy_step_nonpos (ep : Bool) (h : HelperCpu) (conf : CpuSettings) (cpu : Nat) :
    (energy_step ep h conf cpu).1 ≤ 0 := by
  simp only [energy_step]
  split_ifs
  · exact set_cpu_energy_preferences_nonpos ep h (some conf) cpu
  · simp

/-- A zero guarded frequency step means its calls succeeded. -/
theorem freq_step_zero_ok (h : HelperCpu) (conf : CpuSettings) (cpu : Nat)
    (hz : (freq_step h conf cpu).1 = 0) :
    ∀ c ∈ (freq_step h conf cpu).2, call_ok h c = true := by
  simp only [freq_step] at hz ⊢
  split_ifs at hz ⊢
  · exact set_cpu_frequencies_zero_ok h conf cpu hz
  · simp

/-- A zero guarded governor step means its calls succeeded. -/
theorem gov_step_zero_ok (h : HelperCpu) (conf : CpuSettings) (cpu : Nat)
    (hz : (gov_step h conf cpu).1 = 0) :
    ∀ c ∈ (gov_step h conf cpu).2, call_ok h c = true := by
  simp only [gov_step] at hz ⊢
  split_ifs at hz ⊢
  · exact set_cpu_governor_zero_ok h conf cpu hz
  · simp

/-- A zero guarded energy step means its calls succeeded. -/
theorem energy_step_zero_ok (ep : Bool) (h : HelperCpu) (conf : CpuSettings) (cpu : Nat)
    (hz : (energy_step ep h conf cpu).1 = 0) :
    ∀ c ∈ (energy_step ep h conf cpu).2, call_ok h c = true := by
  simp only [energy_step] at hz ⊢
  split_ifs at hz ⊢
  · exact set_cpu_energy_preferences_zero_ok ep h conf cpu hz
  · simp

/-- Every call of the guarded frequency step is a settings write for
its CPU. -/
theorem freq_step_calls (h : HelperCpu) (conf : CpuSettings) (cpu : Nat) :
    ∀ c ∈ (freq_step h conf cpu).2,
      c.call_cpu = cpu ∧ c.is_online_transition = false := by
  simp only [freq_step]
  split_ifs
  · exact set_cpu_frequencies_calls h conf cpu
  · simp

/-- Every call of the guarded governor step is a settings write for its
CPU. -/
theorem gov_step_calls (h : HelperCpu) (conf : CpuSettings) (cpu : Nat) :
    ∀ c ∈ (gov_step h conf cpu).2,
      c.call_cpu = cpu ∧ c.is_online_transition = false := by
  simp only [gov_step]
  split_ifs
  · exact set_cpu_governor_calls h conf cpu
  · simp

/-- Every call of the guarded energy step is a settings write for its
CPU. -/
theorem energy_step_calls (ep : Bool) (h : HelperCpu) (conf : CpuSettings) (cpu : Nat) :
    ∀ c ∈ (energy_step ep h conf cpu).2,
      c.call_cpu = cpu ∧ c.is_online_transition = false := by
  simp only [energy_step]
  split_ifs
  · exact set_cpu_energy_preferences_calls ep h conf cpu
  · simp

/-- Every call of a per-CPU apply body is addressed to that CPU. -/
theorem apply_changed_cpu_calls_cpu (ep : Bool) (cpu : Nat) (h : HelperCpu)
    (conf : CpuSettings) :
    ∀ c ∈ (apply_changed_cpu ep cpu h conf).2, c.call_cpu = cpu := by
  intro c hc
  simp only [apply_changed_cpu] at hc
  split_ifs at hc
  · simp only [List.mem_append] at hc
    rcases hc with ((hc | hc) | hc) | hc
    · exact set_cpu_online_calls_cpu h conf cpu c hc
    · exact (freq_step_calls h conf cpu c hc).1
    · exact (gov_step_calls h conf cpu c hc).1
    · exact (energy_step_calls ep h conf cpu c hc).1
  · exact set_cpu_online_calls_cpu h conf cpu c hc

/-- When the target state is offline, the per-CPU apply body issues no
frequency, governor or energy-preference write. -/
theorem apply_changed_cpu_offline_no_write (ep : Bool) (cpu : Nat) (h : HelperCpu)
    (conf : CpuSettings) (ho : conf.online = false) :
    ∀ c ∈ (apply_changed_cpu ep cpu h conf).2, c.is_settings_write = false := by
  intro c hc
  simp only [apply_changed_cpu, ho] at hc
  simp only [Bool.false_eq_true, if_false] at hc
  exact transition_not_settings_write c (set_cpu_online_transition h conf cpu c hc)

/-- The per-CPU apply body is nonpositive when the helper's transition
returns are. -/
theorem apply_changed_cpu_nonpos (ep : Bool) (cpu : Nat) (h : HelperCpu)
    (conf : CpuSettings) (h1 : h.setOnlineRet ≤ 0) (h2 : h.setOfflineRet ≤ 0) :
    (apply_changed_cpu ep cpu h conf).1 ≤ 0 := by
  simp only [apply_changed_cpu]
  split_ifs
  · have a0 := set_cpu_online_nonpos h conf cpu h1 h2
    have a1 := freq_step_nonpos h conf cpu
    have a2 := gov_step_nonpos h conf cpu
    have a3 := energy_step_nonpos ep h conf cpu
    simp only []
    omega
  · exact set_cpu_online_nonpos h conf cpu h1 h2

/-- A zero per-CPU apply result, under nonpositive transition returns,
means every issued call succeeded. -/
theorem apply_changed_cpu_zero_ok (ep : Bool) (cpu : Nat) (h : HelperCpu)
    (conf : CpuSettings) (h1 : h.setOnlineRet ≤ 0) (h2 : h.setOfflineRet ≤ 0)
    (hz : (apply_changed_cpu ep cpu h conf).1 = 0) :
    ∀ c ∈ (apply_changed_cpu ep cpu h conf).2, call_ok h c = true := by
  intro c hc
  simp only [apply_changed_cpu] at hz hc
  split_ifs at hz hc
  · have a0 := set_cpu_online_nonpos h conf cpu h1 h2
    have a1 := freq_step_nonpos h conf cpu
    have a2 := gov_step_nonpos h conf cpu
    have a3 := energy_step_nonpos ep h conf cpu
    simp only [] at hz
    simp only [List.mem_append] at hc
    rcases hc with ((hc | hc) | hc) | hc
    · exact set_cpu_online_zero_ok h conf cpu (by omega) c hc
    · exact freq_step_zero_ok h conf cpu (by omega) c hc
    · exact gov_step_zero_ok h conf cpu (by omega) c hc
    · exact energy_step_zero_ok ep h conf cpu (by omega) c hc
  · exact set_cpu_online_zero_ok h conf cpu hz c hc

/-- Every online transition issued by a per-CPU apply body reflects a
live/target disagreement. -/
theorem apply_changed_cpu_transition_disagree (ep : Bool) (cpu : Nat) (h : HelperCpu)
    (conf : CpuSettings) :
    ∀ c ∈ (apply_changed_cpu ep cpu h conf).2, c.is_online_transition = true →
      (h.isOffline = true ∧ conf.online = true) ∨
      (h.isOnline = true ∧ conf.online = false) := by
  intro c hc htr
  have hon : c ∈ (set_cpu_online h (some conf) cpu).2 := by
    simp only [apply_changed_cpu] at hc
    split_ifs at hc
    · simp only [List.mem_append] at hc
      rcases hc with ((hc | hc) | hc) | hc
      · exact hc
      · exact absurd htr (by simp [(freq_step_calls h conf cpu c hc).2])
      · exact absurd htr (by simp [(gov_step_calls h conf cpu c hc).2])
      · exact absurd htr (by simp [(energy_step_calls ep h conf cpu c hc).2])
    · exact hc
  apply set_cpu_online_disagree h conf cpu
  intro hnil
  rw [hnil] at hon
  simp at hon

/-! ### Claims -/

/-- C1 (counterexample): a single changed CPU whose governor and
frequency writes both fail while no other privileged write is attempted
(the only issued calls are exactly the failing frequency and governor
writes) — yet the overall result is −25, not −24, because the
changed-but-unset energy preference contributes −1 without any call. -/
theorem c1_counterexample :
    on_apply_clicked true machine_c1 =
      (-25, [HelperCall.updateSettings 0 1500000 2000000,
             HelperCall.updateGovernor 0 "performance"]) ∧
    helper_c1.govRet ≠ 0 ∧ helper_c1.freqRet ≠ 0 ∧
    conf_c1.online = true ∧
    (∀ c ∈ (on_apply_clicked true machine_c1).2, c.is_settings_write = true) ∧
    (-25 : Int) ≠ -24 := by decide

/-- C1 (amended): for every apply pass and every changed CPU occurring
once among the changed CPUs, if on that CPU the governor write and the
frequency write both fail while every other step contributes 0 — the
online step and the energy step on that CPU, and every step on every
other changed CPU — then the overall result is exactly −24. -/
theorem c1_amended (ep : Bool) (machine : List MachineCpu) (m : MachineCpu)
    (hcount : (machine.filter (fun x => x.conf.changed)).count m = 1)
    (hon : m.conf.online = true)
    (hfsel : m.conf.setting_changed "freqs" = true)
    (hgsel : m.conf.setting_changed "governor" = true)
    (hgov : m.conf.governor.isSome = true)
    (hfmin : m.conf.fmin.isSome = true) (hfmax : m.conf.fmax.isSome = true)
    (hgf : m.helper.govRet ≠ 0) (hff : m.helper.freqRet ≠ 0)
    (honline0 : (set_cpu_online m.helper (some m.conf) m.cpu).1 = 0)
    (henergy0 : (energy_step ep m.helper m.conf m.cpu).1 = 0)
    (hothers : ∀ x ∈ machine.filter (fun x => x.conf.changed), x ≠ m →
      (apply_changed_cpu ep x.cpu x.helper x.conf).1 = 0) :
    (on_apply_clicked ep machine).1 = -24 := by
  obtain ⟨a, ha⟩ := Option.isSome_iff_exists.mp hfmin
  obtain ⟨b, hb⟩ := Option.isSome_iff_exists.mp hfmax
  obtain ⟨g, hg⟩ := Option.isSome_iff_exists.mp hgov
  have hfs : (freq_step m.helper m.conf m.cpu).1 = -13 := by
    simp [freq_step, hfsel, set_cpu_frequencies, CpuSettings.freqs_scaled,
      ha, hb, hff]
  have hgs : (gov_step m.helper m.conf m.cpu).1 = -11 := by
    simp [gov_step, hgsel, set_cpu_governor, hg, hgf]
  have hm : (apply_changed_cpu ep m.cpu m.helper m.conf).1 = -24 := by
    simp [apply_changed_cpu, hon, honline0, hfs, hgs, henergy0]
  have h1 : (on_apply_clicked ep machine).1 =
      ((machine.filter (fun x => x.conf.changed)).map
        (fun x => (apply_changed_cpu ep x.cpu x.helper x.conf).1)).sum := by
    rw [on_apply_clicked_eq]
  rw [h1, list_map_sum_single _ _ m hcount hothers, hm]

/-- C1 (witness): on a concrete single-CPU machine whose governor and
frequency writes fail and everything else succeeds, the amended claim
yields exactly −24. -/
theorem c1_witness : (on_apply_clicked true machine_c1w).1 = -24 :=
  c1_amended true machine_c1w ⟨0, helper_c1, conf_c1w⟩ (by decide) (by decide)
    (by decide) (by decide) (by decide) (by decide) (by decide) (by decide)
    (by decide) (by decide) (by decide) (by decide)

/-- C2: for every apply pass and every CPU id whose settings entries
all target the offline state, no frequency, governor or
energy-preference call is ever issued for that CPU — regardless of
which fields are marked changed. -/
theorem c2_offline_gating (ep : Bool) (machine : List MachineCpu) (cpu : Nat)
    (hoff : ∀ m ∈ machine, m.cpu = cpu → m.conf.online = false) :
    ∀ c ∈ (on_apply_clicked ep machine).2, c.call_cpu = cpu →
      c.is_settings_write = false := by
  intro c hc hcpu
  rw [on_apply_clicked_eq] at hc
  rcases List.mem_join.mp hc with ⟨l, hl, hcl⟩
  rcases List.mem_map.mp hl with ⟨m, hm, rfl⟩
  have hmm : m ∈ machine := (List.mem_filter.mp hm).1
  have hcpu2 : m.cpu = cpu := by
    rw [← hcpu]
    exact (apply_changed_cpu_calls_cpu ep m.cpu m.helper m.conf c hcl).symm
  exact apply_changed_cpu_offline_no_write ep m.cpu m.helper m.conf
    (hoff m hmm hcpu2) c hcl

/-- C2 (witness): on a concrete machine whose only entry (CPU 1)
targets offline, the issued transition call is not a settings write. -/
theorem c2_witness : HelperCall.is_settings_write (HelperCall.setOffline 1) = false :=
  c2_offline_gating true machine_c2 1 (by decide) (HelperCall.setOffline 1)
    (by decide) (by decide)

/-- C3 (counterexample): at hardware bounds 800–3200 with requested
min 2000 and max 1000, the code stores (2000, 2010) — the max bound is
pushed to a fixed 10 MHz above the requested min — whereas pushing the
other bound by the requested delta (re-clamped) would store
(2000, 2000). -/
theorem c3_counterexample :
    on_freq_changed 800 3200 2000 1000 = (2000, 2010) ∧
    resolve_freqs_spec 800 3200 2000 1000 = (2000, 2000) ∧
    on_freq_changed 800 3200 2000 1000 ≠ resolve_freqs_spec 800 3200 2000 1000 := by
  decide

/-- C3 (amended): for every requested pair within the hardware bounds,
the stored result satisfies `hwMin ≤ min ≤ max ≤ hwMax`; and whenever
the requested min exceeds the requested max, the requested min is kept
(no swap) and the max bound is pushed to a fixed 10 MHz above it,
re-clamped to the hardware max. -/
theorem c3_amended (fmin_hw fmax_hw fmin fmax : Int)
    (h1 : fmin_hw ≤ fmin) (h2 : fmin ≤ fmax_hw)
    (h3 : fmin_hw ≤ fmax) (h4 : fmax ≤ fmax_hw) :
    (fmin_hw ≤ (on_freq_changed fmin_hw fmax_hw fmin fmax).1 ∧
     (on_freq_changed fmin_hw fmax_hw fmin fmax).1 ≤
       (on_freq_changed fmin_hw fmax_hw fmin fmax).2 ∧
     (on_freq_changed fmin_hw fmax_hw fmin fmax).2 ≤ fmax_hw) ∧
    (fmin > fmax →
      on_freq_changed fmin_hw fmax_hw fmin fmax = (fmin, min (fmin + 10) fmax_hw)) := by
  unfold on_freq_changed
  split_ifs with hgt
  · exact ⟨⟨h1, le_min (by linarith) h2, min_le_right _ _⟩, fun _ => rfl⟩
  · exact ⟨⟨h1, le_of_not_lt hgt, h4⟩, fun hx => absurd hx hgt⟩

/-- C3 (witness): the amended claim evaluated at the specification's
scenario values — hardware bounds 800–3200, requested min = max =
1200. -/
theorem c3_witness :
    ((800 : Int) ≤ (on_freq_changed 800 3200 1200 1200).1 ∧
     (on_freq_changed 800 3200 1200 1200).1 ≤ (on_freq_changed 800 3200 1200 1200).2 ∧
     (on_freq_changed 800 3200 1200 1200).2 ≤ 3200) ∧
    ((1200 : Int) > 1200 →
      on_freq_changed 800 3200 1200 1200 = (1200, min (1200 + 10) 3200)) :=
  c3_amended 800 3200 1200 1200 (by decide) (by decide) (by decide) (by decide)

/-- C4: in the per-CPU apply body, an online/offline call is issued
only when the helper-reported live state disagrees with the target
online value; and when the target is offline but the helper reports
the CPU may not go offline, the whole online step is skipped — no call
is attempted and the contribution is 0, not an error. -/
theorem c4_online_transition_guard (ep : Bool) (cpu : Nat) (h : HelperCpu)
    (conf : CpuSettings) :
    (∀ c ∈ (apply_changed_cpu ep cpu h conf).2, c.is_online_transition = true →
      (h.isOffline = true ∧ conf.online = true) ∨
      (h.isOnline = true ∧ conf.online = false)) ∧
    (conf.online = false → h.allowedOffline = false →
      apply_changed_cpu ep cpu h conf = (0, [])) := by
  constructor
  · exact apply_changed_cpu_transition_disagree ep cpu h conf
  · intro ho ha
    simp only [apply_changed_cpu, ho, Bool.false_eq_true, if_false]
    exact set_cpu_online_skip h conf cpu ho ha

/-- C4 (witness): a CPU targeting offline that the helper does not
allow offline contributes (0, no calls). -/
theorem c4_witness : apply_changed_cpu true 1 helper_noff conf_off = (0, []) :=
  (c4_online_transition_guard true 1 helper_noff conf_off).2 (by decide) (by decide)

/-- C5 (counterexample): a changed CPU whose transition to online fails
with raw code +13 while its frequency write fails with −13 — the
aggregate is 0, which is treated as success (no error dialog), even
though an attempted write failed. -/
theorem c5_counterexample :
    (on_apply_clicked true machine_c5).1 = 0 ∧
    apply_outcome (on_apply_clicked true machine_c5).1 = none ∧
    HelperCall.updateSettings 0 1500000 2000000 ∈ (on_apply_clicked true machine_c5).2 ∧
    call_ok helper_c5 (HelperCall.updateSettings 0 1500000 2000000) = false := by
  decide

/-- C5 (amended): the apply pass returns the arithmetic sum of the
per-changed-CPU per-dimension contributions; provided no helper
transition call returns a positive value, a returned 0 means every
attempted write on every changed CPU succeeded; and any non-zero sum
outside the six-entry table is reported as the generic unknown error,
never treated as success. -/
theorem c5_amended (ep : Bool) (machine : List MachineCpu) :
    ((on_apply_clicked ep machine).1 =
      ((machine.filter (fun m => m.conf.changed)).map
        (fun m => (apply_changed_cpu ep m.cpu m.helper m.conf).1)).sum) ∧
    ((∀ m ∈ machine, m.helper.setOnlineRet ≤ 0 ∧ m.helper.setOfflineRet ≤ 0) →
      (on_apply_clicked ep machine).1 = 0 →
      ∀ m ∈ machine, m.conf.changed = true →
        ∀ c ∈ (apply_changed_cpu ep m.cpu m.helper m.conf).2,
          call_ok m.helper c = true) ∧
    (∀ ret : Int, ret ≠ 0 → ERRORS ret = none →
      apply_outcome ret = some "Unknown error occurred.") := by
  have h1 : (on_apply_clicked ep machine).1 =
      ((machine.filter (fun m => m.conf.changed)).map
        (fun m => (apply_changed_cpu ep m.cpu m.helper m.conf).1)).sum := by
    rw [on_apply_clicked_eq]
  refine ⟨h1, ?_, ?_⟩
  · intro hnp hz m hm hch c hc
    have hle : ∀ x ∈ (machine.filter (fun m => m.conf.changed)).map
        (fun m => (apply_changed_cpu ep m.cpu m.helper m.conf).1), x ≤ 0 := by
      intro x hx
      rcases List.mem_map.mp hx with ⟨m2, hm2, rfl⟩
      have hmm2 : m2 ∈ machine := (List.mem_filter.mp hm2).1
      exact apply_changed_cpu_nonpos ep m2.cpu m2.helper m2.conf
        (hnp m2 hmm2).1 (hnp m2 hmm2).2
    have hall := list_mem_eq_zero_of_sum_zero _ hle (by rw [← h1]; exact hz)
    have hmf : m ∈ machine.filter (fun m => m.conf.changed) :=
      List.mem_filter.mpr ⟨hm, hch⟩
    have hz2 : (apply_changed_cpu ep m.cpu m.helper m.conf).1 = 0 :=
      hall _ (List.mem_map_of_mem _ hmf)
    exact apply_changed_cpu_zero_ok ep m.cpu m.helper m.conf
      (hnp m hm).1 (hnp m hm).2 hz2 c hc
  · intro ret h0 hE
    simp [apply_outcome, h0, hE]

/-- C5 (witness): on a concrete machine with one changed governor and a
fully succeeding helper, the amended claim certifies that the issued
governor write succeeded. -/
theorem c5_witness :
    call_ok helper_ok (HelperCall.updateGovernor 0 "performance") = true :=
  (c5_amended true machine_c5w).2.1 (by decide) (by decide)
    ⟨0, helper_ok, conf_c5w⟩ (by decide) (by decide)
    (HelperCall.updateGovernor 0 "performance") (by decide)

/-- C6 (counterexample): with two CPUs and broadcast conceptually
enabled, toggling CPU 0's online field to offline leaves CPU 1's
settings entirely unchanged (its online value stays true): the online
edit is never broadcast — the source handler does not consult the
"apply to all" toggle at all. -/
theorem c6_counterexample :
    on_cpu_online_toggled 0 false settings_c6 =
      [(0, conf_base.set_online false), (1, conf_base)] ∧
    conf_base.online = true ∧
    (conf_base.set_online false).online = false := by decide

/-- C6 (amended): with broadcast enabled, a frequency edit copies the
pair into every CPU's settings and a governor edit sets the governor on
every CPU whose available governors include it (and leaves it unchanged
elsewhere); neither edit ever alters any CPU's energy preference; an
online edit alters only the active CPU's settings; and with broadcast
disabled, frequency and governor edits leave every other CPU's settings
unchanged. -/
theorem c6_amended (settings : List (Nat × CpuSettings)) (cpu : Nat) (a b : Int)
    (g : String) (checked : Bool) :
    (∀ p ∈ settings.zip (update_settings_freqs true cpu a b settings),
        p.2.1 = p.1.1 ∧ p.2.2.fmin = some a ∧ p.2.2.fmax = some b ∧
        p.2.2.energyPref = p.1.2.energyPref ∧ p.2.2.governor = p.1.2.governor ∧
        p.2.2.online = p.1.2.online) ∧
    (∀ p ∈ settings.zip (on_governor_changed true cpu (some g) settings),
        p.2.1 = p.1.1 ∧ p.2.2.energyPref = p.1.2.energyPref ∧
        p.2.2.fmin = p.1.2.fmin ∧ p.2.2.fmax = p.1.2.fmax ∧
        p.2.2.online = p.1.2.online ∧
        (g ∈ p.1.2.governors → p.2.2.governor = some g) ∧
        (g ∉ p.1.2.governors → p.2.2.governor = p.1.2.governor)) ∧
    (∀ p ∈ settings.zip (on_cpu_online_toggled cpu checked settings),
        p.1.1 ≠ cpu → p.2 = p.1) ∧
    (∀ p ∈ settings.zip (update_settings_freqs false cpu a b settings),
        p.1.1 ≠ cpu → p.2 = p.1) ∧
    (∀ p ∈ settings.zip (on_governor_changed false cpu (some g) settings),
        p.1.1 ≠ cpu → p.2 = p.1) := by
  refine ⟨?_, ?_, ?_, ?_, ?_⟩
  · intro p hp
    simp only [update_settings_freqs, if_true] at hp
    have h2 := mem_zip_map _ settings p hp
    rw [h2]
    simp [CpuSettings.set_freqs]
  · intro p hp
    simp only [on_governor_changed, if_true] at hp
    have h2 := mem_zip_map _ settings p hp
    rw [h2]
    refine ⟨rfl, ?_, ?_, ?_, ?_, ?_, ?_⟩ <;>
      simp only [CpuSettings.set_governor] <;> split_ifs with hg <;>
      simp_all
  · intro p hp hne
    simp only [on_cpu_online_toggled] at hp
    have h2 := mem_zip_map _ settings p hp
    rw [h2, if_neg hne]
  · intro p hp hne
    simp only [update_settings_freqs, if_false] at hp
    have h2 := mem_zip_map _ settings p hp
    rw [h2, if_neg hne]
  · intro p hp hne
    simp only [on_governor_changed, if_false] at hp
    have h2 := mem_zip_map _ settings p hp
    rw [h2, if_neg hne]

/-- C6 (witness): broadcasting a frequency edit on the concrete
two-CPU machine stores the pair on CPU 1 and leaves its energy
preference, governor and online state untouched. -/
theorem c6_witness :
    (1 : Nat) = 1 ∧ (conf_base.set_freqs 1200 1300).fmin = some 1200 ∧
    (conf_base.set_freqs 1200 1300).fmax = some 1300 ∧
    (conf_base.set_freqs 1200 1300).energyPref = conf_base.energyPref ∧
    (conf_base.set_freqs 1200 1300).governor = conf_base.governor ∧
    (conf_base.set_freqs 1200 1300).online = conf_base.online :=
  (c6_amended settings_c6 0 1200 1300 "performance" false).1
    ((1, conf_base), (1, conf_base.set_freqs 1200 1300)) (by decide)

/-- C7: the energy-preference edit obeys only its own per-CPU/global
scope flag (the handler never consults the main broadcast toggle): when
the scope is global, an available preference is stored on every CPU's
settings (and nothing else changes); when the scope is per-CPU, every
other CPU's settings are untouched and the active CPU receives the
preference when available. -/
theorem c7_energy_scope (settings : List (Nat × CpuSettings)) (cpu : Nat)
    (pref : String) :
    (∀ p ∈ settings.zip (on_energy_pref_changed false cpu (some pref) settings),
        p.2.1 = p.1.1 ∧
        (pref ∈ p.1.2.energyPrefs → p.2.2.energyPref = some pref) ∧
        p.2.2.fmin = p.1.2.fmin ∧ p.2.2.fmax = p.1.2.fmax ∧
        p.2.2.governor = p.1.2.governor ∧ p.2.2.online = p.1.2.online) ∧
    (∀ p ∈ settings.zip (on_energy_pref_changed true cpu (some pref) settings),
        (p.1.1 ≠ cpu → p.2 = p.1) ∧
        (p.1.1 = cpu → pref ∈ p.1.2.energyPrefs → p.2.2.energyPref = some pref)) := by
  constructor
  · intro p hp
    simp only [on_energy_pref_changed, if_false] at hp
    have h2 := mem_zip_map _ settings p hp
    rw [h2]
    refine ⟨rfl, ?_, ?_, ?_, ?_, ?_⟩ <;>
      simp only [CpuSettings.set_energy_pref] <;> split_ifs with hg <;>
      simp_all
  · intro p hp
    simp only [on_energy_pref_changed, if_true] at hp
    have h2 := mem_zip_map _ settings p hp
    constructor
    · intro hne
      rw [h2, if_neg hne]
    · intro heq hmem
      rw [h2, if_pos heq]
      simp only [CpuSettings.set_energy_pref]
      rw [if_pos hmem]

/-- C7 (witness): with global scope on the concrete two-CPU machine,
CPU 1 receives the broadcast energy preference. -/
theorem c7_witness :
    (1 : Nat) = 1 ∧
    ("performance" ∈ conf_base.energyPrefs →
      (conf_base.set_energy_pref (some "performance")).energyPref =
        some "performance") ∧
    (conf_base.set_energy_pref (some "performance")).fmin = conf_base.fmin ∧
    (conf_base.set_energy_pref (some "performance")).fmax = conf_base.fmax ∧
    (conf_base.set_energy_pref (some "performance")).governor = conf_base.governor ∧
    (conf_base.set_energy_pref (some "performance")).online = conf_base.online :=
  (c7_energy_scope settings_c6 0 "performance").1
    ((1, conf_base), (1, conf_base.set_energy_pref (some "performance"))) (by decide)

/-- C8: if no CPU's settings differ from its baseline, the apply pass
issues zero privileged calls and returns 0. -/
theorem c8_idempotence (ep : Bool) (machine : List MachineCpu)
    (h : ∀ m ∈ machine, m.conf.changed = false) :
    on_apply_clicked ep machine = (0, []) := by
  have hf : machine.filter (fun m => m.conf.changed) = [] := by
    rw [List.filter_eq_nil]
    intro m hm
    simp [h m hm]
  unfold on_apply_clicked
  rw [hf]
  rfl

/-- C8 (witness): the concrete one-CPU machine with unchanged settings
yields zero calls and result 0. -/
theorem c8_witness : on_apply_clicked true machine_idle = (0, []) :=
  c8_idempotence true machine_idle (by decide)

/-- C9 (counterexample): a single changed CPU whose only failure is the
online transition, with the helper returning raw code −11 — the
aggregate −11 collides with the governor entry of the table, so the
failure is reported as "Setting governor failed.", not as the generic
unknown error. -/
theorem c9_counterexample :
    (on_apply_clicked true machine_c9).1 = -11 ∧
    (on_apply_clicked true machine_c9).2 = [HelperCall.setOnline 0] ∧
    helper_c9.setOnlineRet ≠ 0 ∧
    apply_outcome (on_apply_clicked true machine_c9).1 =
      some "Setting governor failed." ∧
    apply_outcome (on_apply_clicked true machine_c9).1 ≠
      some "Unknown error occurred." := by decide

/-- C9 (amended): a failed online transition feeds its raw helper
return value unmapped into the aggregate (there is no fixed code for
the online dimension): on a single-CPU pass where only the online field
changed, the aggregate equals the raw return value, and whenever that
value is non-zero and outside the six-entry table it is reported as the
generic unknown error. -/
theorem c9_amended (ep : Bool) (m : MachineCpu)
    (hch : m.conf.changed = true)
    (hon : m.conf.online = true) (hoff : m.helper.isOffline = true)
    (hfs : m.conf.setting_changed "freqs" = false)
    (hgs : m.conf.setting_changed "governor" = false)
    (hes : m.conf.setting_changed "energy_pref" = false) :
    (on_apply_clicked ep [m]).1 = m.helper.setOnlineRet ∧
    (on_apply_clicked ep [m]).2 = [HelperCall.setOnline m.cpu] ∧
    (m.helper.setOnlineRet ≠ 0 → ERRORS m.helper.setOnlineRet = none →
      apply_outcome (on_apply_clicked ep [m]).1 =
        some "Unknown error occurred.") := by
  have happly : apply_changed_cpu ep m.cpu m.helper m.conf =
      (m.helper.setOnlineRet, [HelperCall.setOnline m.cpu]) := by
    simp [apply_changed_cpu, hon, freq_step, gov_step, energy_step, hfs, hgs,
      hes, set_cpu_online, hoff]
  have hrun : on_apply_clicked ep [m] =
      (m.helper.setOnlineRet, [HelperCall.setOnline m.cpu]) := by
    unfold on_apply_clicked
    simp [List.filter, hch, happly]
  rw [hrun]
  refine ⟨rfl, rfl, ?_⟩
  intro h0 hE
  simp [apply_outcome, h0, hE]

/-- C9 (witness): with the transition failing with raw code +7 —
outside the table — the single-CPU pass aggregates to 7 and reports the
generic unknown error. -/
theorem c9_witness :
    apply_outcome (on_apply_clicked true [⟨0, helper_c9w, conf_c9⟩]).1 =
      some "Unknown error occurred." :=
  (c9_amended true ⟨0, helper_c9w, conf_c9⟩ (by decide) (by decide) (by decide)
    (by decide) (by decide) (by decide)).2.2 (by decide) (by decide)

/-- C10: the governor step returns −1 with no privileged call when the
governor value is unset, and the energy and frequency steps likewise
return −1 with no call when their value is missing; consequently the
concrete pass over a CPU whose governor changed to the unset sentinel
returns the non-zero aggregate −1 with an empty call trace — reported
as an error although no attempted privileged call failed. -/
theorem c10_missing_values (h : HelperCpu) (conf : CpuSettings) (cpu : Nat) :
    (conf.governor = none → set_cpu_governor h (some conf) cpu = (-1, [])) ∧
    (conf.energyPref = none ∨ conf.energyPref = some "" →
      set_cpu_energy_preferences true h (some conf) cpu = (-1, [])) ∧
    (conf.fmin = none ∨ conf.fmax = none →
      set_cpu_frequencies h (some conf) cpu = (-1, [])) ∧
    ((on_apply_clicked true machine_c10).1 = -1 ∧
     (on_apply_clicked true machine_c10).2 = [] ∧
     apply_outcome (on_apply_clicked true machine_c10).1 =
       some "Unknown error occurred.") := by
  refine ⟨fun hg => set_cpu_governor_unset h conf cpu hg,
    fun hp => set_cpu_energy_preferences_unset h conf cpu hp,
    fun hf => set_cpu_frequencies_unset h conf cpu hf, by decide⟩

/-- C10 (witness): the governor step at the concrete unset-governor
settings entry returns −1 with no call. -/
theorem c10_witness : set_cpu_governor helper_ok (some conf_c10) 0 = (-1, []) :=
  (c10_missing_values helper_ok conf_c10 0).1 (by decide)
